import Mathlib

/-!
Shallow embedding of the HTML-to-PDF server (`server.js`).

The Renderer Engine (puppeteer) is an external collaborator: it is modelled
as a behaviour table `Nat → AttemptSpec`, giving for each attempt number the
outcome of `puppeteer.launch`, `browser.newPage`, `page.setContent`,
`page.pdf`, the value of `page.isClosed()` at cleanup time, and whether
`page.close()` / `browser.close()` throw.

`generatePDF` is embedded as a pure function that returns the result of the
JS function (`Except`: thrown error, or `Option Bytes`: the returned value,
`none` standing for `undefined` when the loop body never runs) together
with a trace of observable events (launch calls, close calls, waits, the
options passed to `page.pdf`), mirroring the control flow of
`server.js` lines 24-113 statement by statement, including the JS rule that
the `catch` block (which contains the 2-second retry wait) runs before the
`finally` block (which contains the cleanup).
-/

/-- JS value, as far as the endpoint's validation can observe it.  Numbers
are modelled as integers (`NaN` and floats play no role in the claims). -/
inductive JsValue where
  | null : JsValue
  | bool (b : Bool) : JsValue
  | num (n : Int) : JsValue
  | str (s : String) : JsValue
  | arr (elems : List JsValue) : JsValue
  | obj (entries : List (String × JsValue)) : JsValue
deriving Repr

/-- JS truthiness of a value, as used by `if (!html)` (line 124):
`undefined`/`null`/`false`/`0`/`""` are falsy, every other value is truthy. -/
def truthy : JsValue → Bool
  | JsValue.null => false
  | JsValue.bool b => b
  | JsValue.num n => decide (n ≠ 0)
  | JsValue.str s => decide (s ≠ "")
  | JsValue.arr _ => true
  | JsValue.obj _ => true

/-- Margin object: top/right/bottom/left CSS dimension strings. -/
structure Margin where
  top : Option String := none
  right : Option String := none
  bottom : Option String := none
  left : Option String := none
deriving Repr, DecidableEq

/-- PDF render options.  `none` models an absent key in the JS object.
`timeout` is included because the object spread `...options` on line 72
copies every key of the caller's object, `timeout` included. -/
structure PdfOptions where
  format : Option String := none
  printBackground : Option Bool := none
  margin : Option Margin := none
  timeout : Option Nat := none
  landscape : Option Bool := none
  width : Option String := none
  height : Option String := none
deriving Repr, DecidableEq

/-- Margin defaulted on lines 65-70: 1cm on all four sides. -/
def defaultMargin : Margin :=
  { top := some "1cm", right := some "1cm", bottom := some "1cm", left := some "1cm" }

/-- The `pdfOptions` object of lines 62-73: defaults
`format: "A4", printBackground: true, margin: 1cm all sides, timeout: 30000`
then `...options` — a key present in the caller's options wins, keys the
caller leaves unset keep the defaults (there are no defaults for
`landscape`, `width`, `height`). -/
def pdfOptions (options : PdfOptions) : PdfOptions :=
  { format := some (options.format.getD "A4")
    printBackground := some (options.printBackground.getD true)
    margin := some (options.margin.getD defaultMargin)
    timeout := some (options.timeout.getD 30000)
    landscape := options.landscape
    width := options.width
    height := options.height }

/-- Error value (JS `Error`), reduced to its message. -/
structure Err where
  msg : String
deriving Repr, DecidableEq

/-- PDF byte buffer. -/
abbrev Bytes := List Nat

/-- Behaviour of the Renderer Engine during one attempt: outcome of each
engine call made by the loop body, plus the cleanup-time observations. -/
structure AttemptSpec where
  launch : Except Err Unit
  newPage : Except Err Unit
  setContent : Except Err Unit
  pdfExport : Except Err Bytes
  pageIsClosed : Bool
  pageCloseErr : Option Err
  browserCloseErr : Option Err
deriving Repr

/-- Observable events of one `generatePDF` run, in program order. -/
inductive Event where
  | launchCall : Event
  | launchOk : Event
  | pageOpen : Event
  | setContentOk : Event
  | settleWait (ms : Nat) : Event
  | pdfCall (opts : PdfOptions) : Event
  | retryWait (ms : Nat) : Event
  | pageCloseCall : Event
  | pageAlreadyClosed : Event
  | browserCloseCall : Event
  | warnLogged (msg : String) : Event
  | cleanupDone : Event
deriving Repr, DecidableEq

def Event.isLaunchCall : Event → Bool
  | Event.launchCall => true
  | _ => false

def Event.isLaunchOk : Event → Bool
  | Event.launchOk => true
  | _ => false

def Event.isPageOpen : Event → Bool
  | Event.pageOpen => true
  | _ => false

def Event.isPageCloseCall : Event → Bool
  | Event.pageCloseCall => true
  | _ => false

def Event.isPageAlreadyClosed : Event → Bool
  | Event.pageAlreadyClosed => true
  | _ => false

def Event.isBrowserCloseCall : Event → Bool
  | Event.browserCloseCall => true
  | _ => false

def Event.isCleanupDone : Event → Bool
  | Event.cleanupDone => true
  | _ => false

def Event.isWarnLog : Event → Bool
  | Event.warnLogged _ => true
  | _ => false

/-- Trace with the swallowed-and-logged cleanup errors removed. -/
def stripLogs (tr : List Event) : List Event :=
  tr.filter (fun e => ! e.isWarnLog)

/-- Outcome of the `try` block of one attempt (lines 31-80): its result,
whether `browser` and `page` are non-null when the block exits, and the
events it produced.  `launch`, `newPage`, `setContent` and `pdfExport` are
performed in source order; the settling delay (line 57) precedes the
merge/export (lines 62-76). -/
structure TryOut where
  result : Except Err Bytes
  hasBrowser : Bool
  hasPage : Bool
  events : List Event
deriving Repr

def tryBlock (s : AttemptSpec) (merged : PdfOptions) : TryOut :=
  match s.launch with
  | Except.error e => ⟨Except.error e, false, false, [Event.launchCall]⟩
  | Except.ok _ =>
    match s.newPage with
    | Except.error e => ⟨Except.error e, true, false, [Event.launchCall, Event.launchOk]⟩
    | Except.ok _ =>
      match s.setContent with
      | Except.error e =>
        ⟨Except.error e, true, true, [Event.launchCall, Event.launchOk, Event.pageOpen]⟩
      | Except.ok _ =>
        match s.pdfExport with
        | Except.error e =>
          ⟨Except.error e, true, true,
            [Event.launchCall, Event.launchOk, Event.pageOpen, Event.setContentOk,
             Event.settleWait 2000, Event.pdfCall merged]⟩
        | Except.ok bytes =>
          ⟨Except.ok bytes, true, true,
            [Event.launchCall, Event.launchOk, Event.pageOpen, Event.setContentOk,
             Event.settleWait 2000, Event.pdfCall merged]⟩

/-- Result of the `try` block, which depends only on the engine outcomes. -/
def tryResult (s : AttemptSpec) : Except Err Bytes :=
  match s.launch with
  | Except.error e => Except.error e
  | Except.ok _ =>
    match s.newPage with
    | Except.error e => Except.error e
    | Except.ok _ =>
      match s.setContent with
      | Except.error e => Except.error e
      | Except.ok _ => s.pdfExport

/-- Does the `try` block of an attempt with this behaviour fail? -/
def tryFails (s : AttemptSpec) : Bool :=
  match tryResult s with
  | Except.error _ => true
  | Except.ok _ => false

/-- Events of the `catch` block (lines 81-91): on failure of a non-final
attempt, wait 2 seconds before retrying; on the final attempt the `throw`
on line 86 skips the wait.  JS runs this block before the `finally` block. -/
def catchEvents (r : Except Err Bytes) (isFinal : Bool) : List Event :=
  match r with
  | Except.ok _ => []
  | Except.error _ => if isFinal then [] else [Event.retryWait 2000]

/-- Events of the `finally` block (lines 92-111): close the page if it is
non-null and not already closed, then close the browser if non-null; an
error from either close is caught and logged (`console.warn`), never
rethrown. -/
def cleanupEvents (s : AttemptSpec) (hasPage hasBrowser : Bool) : List Event :=
  (if hasPage then
    (if s.pageIsClosed then [Event.pageAlreadyClosed]
     else
       Event.pageCloseCall ::
         (match s.pageCloseErr with
          | some e => [Event.warnLogged e.msg]
          | none => []))
   else []) ++
  (if hasBrowser then
    Event.browserCloseCall ::
      (match s.browserCloseErr with
       | some e => [Event.warnLogged e.msg]
       | none => [])
   else []) ++
  [Event.cleanupDone]

/-- One full attempt: `try` body, then `catch`, then `finally`.  Its result
is the `try` block's result — cleanup errors are swallowed and the retry
wait does not change it. -/
structure AttemptOut where
  result : Except Err Bytes
  events : List Event
deriving Repr

def attemptRun (s : AttemptSpec) (merged : PdfOptions) (isFinal : Bool) : AttemptOut :=
  { result := (tryBlock s merged).result
    events :=
      (tryBlock s merged).events ++
      catchEvents (tryBlock s merged).result isFinal ++
      cleanupEvents s (tryBlock s merged).hasPage (tryBlock s merged).hasBrowser }

/-- What the loop does with one attempt's outcome: on success return the
bytes (cleanup already in the attempt's events); on failure rethrow if this
was the final attempt (`attempt === maxRetries`, line 85), otherwise carry
on with the rest of the loop. -/
def stepResult (a : AttemptOut) (isFinal : Bool)
    (rest : Except Err (Option Bytes) × List Event) :
    Except Err (Option Bytes) × List Event :=
  match a.result with
  | Except.ok bytes => (Except.ok (some bytes), a.events)
  | Except.error e =>
    if isFinal then (Except.error e, a.events)
    else (rest.1, a.events ++ rest.2)

/-- The `for (let attempt = 1; attempt <= maxRetries; attempt++)` loop of
lines 27-112, with the remaining number of iterations as fuel.  When the
fuel is exhausted the loop exits normally and the function returns
`undefined` (`Except.ok none`). -/
def genLoop (engine : Nat → AttemptSpec) (merged : PdfOptions) (maxRetries : Int) :
    Nat → Nat → Except Err (Option Bytes) × List Event
  | _, 0 => (Except.ok none, [])
  | attempt, fuel + 1 =>
    stepResult (attemptRun (engine attempt) merged (decide ((attempt : Int) = maxRetries)))
      (decide ((attempt : Int) = maxRetries))
      (genLoop engine merged maxRetries (attempt + 1) fuel)

/-- `generatePDF(html, options = \x7b\x7d, maxRetries = 2)` (lines 24-113).
The merged `pdfOptions` object is constant across attempts, so it is
computed once here and passed into every attempt.  `html` is only ever
forwarded to `page.setContent`, whose outcome the engine behaviour table
already fixes, so it does not influence the model's control flow. -/
def generatePDF (engine : Nat → AttemptSpec) (html : JsValue)
    (options : PdfOptions := {}) (maxRetries : Int := 2) :
    Except Err (Option Bytes) × List Event :=
  genLoop engine (pdfOptions options) maxRetries 1 maxRetries.toNat

/-- Body of a `POST /html-to-pdf` request: `html` and `options` keys, each
possibly absent. -/
structure RequestBody where
  html : Option JsValue := none
  options : Option PdfOptions := none
deriving Repr

/-- Observable outcome of the `POST /html-to-pdf` handler, including
whether and with which argument `generatePDF` was invoked. -/
structure PostResult where
  status : Nat
  errorField : Option String := none
  usageField : Option String := none
  detailsField : Option String := none
  pdfBody : Option Bytes := none
  generateCalled : Bool := false
  forwardedHtml : Option JsValue := none
deriving Repr

/-- Usage hint returned with the 400 response (lines 126-128). -/
def usageHint : String :=
  "POST /html-to-pdf with \x7b \"html\": \"<html>...</html>\", \"options\": \x7b...\x7d \x7d"

/-- 400 response of lines 125-143 (the `availableOptions` listing is not
needed by any claim and is omitted). -/
def badRequestResponse : PostResult :=
  { status := 400
    errorField := some "HTML content is required"
    usageField := some usageHint }

/-- The `POST /html-to-pdf` handler (lines 120-163): destructure
`html`/`options` from the body, reject with 400 when `html` is falsy
(absent, null, empty string, 0, false), otherwise call
`generatePDF(html, options)` (maxRetries left at its default 2) and map its
outcome to a 200 PDF response or a 500 JSON error. -/
def handleHtmlToPdf (engine : Nat → AttemptSpec) (body : RequestBody) : PostResult :=
  match body.html with
  | none => badRequestResponse
  | some h =>
    if truthy h then
      match generatePDF engine h (body.options.getD {}) 2 with
      | (Except.ok (some pdf), _) =>
        { status := 200
          pdfBody := some pdf
          generateCalled := true
          forwardedHtml := some h }
      | (Except.ok none, _) =>
        { status := 500
          errorField := some "Failed to generate PDF"
          detailsField := some "Cannot read properties of undefined"
          generateCalled := true
          forwardedHtml := some h }
      | (Except.error e, _) =>
        { status := 500
          errorField := some "Failed to generate PDF"
          detailsField := some e.msg
          generateCalled := true
          forwardedHtml := some h }
    else badRequestResponse

/-- Engine double whose every call succeeds; the exported bytes start with
the PDF signature. -/
def okSpec : AttemptSpec :=
  { launch := Except.ok ()
    newPage := Except.ok ()
    setContent := Except.ok ()
    pdfExport := Except.ok [37, 80, 68, 70, 45]
    pageIsClosed := false
    pageCloseErr := none
    browserCloseErr := none }

/-- Engine double whose PDF export fails with the given message. -/
def failSpec (msg : String) : AttemptSpec :=
  { okSpec with pdfExport := Except.error ⟨msg⟩ }

def okEngine : Nat → AttemptSpec := fun _ => okSpec

def failEngine : Nat → AttemptSpec := fun k => failSpec (toString k)

/-- Engine double failing on attempt 1 and succeeding from attempt 2 on. -/
def flakyEngine : Nat → AttemptSpec := fun k => if k = 1 then failSpec "first" else okSpec

/-- Engine double that succeeds but whose cleanup calls both throw. -/
def noisyCloseEngine : Nat → AttemptSpec :=
  fun _ => { okSpec with pageCloseErr := some ⟨"pc"⟩, browserCloseErr := some ⟨"bc"⟩ }

/-- Two attempt behaviours that agree on everything except whether the
cleanup calls `page.close()` / `browser.close()` throw. -/
def sameExceptCloseErrs (s t : AttemptSpec) : Prop :=
  s.launch = t.launch ∧ s.newPage = t.newPage ∧ s.setContent = t.setContent ∧
  s.pdfExport = t.pdfExport ∧ s.pageIsClosed = t.pageIsClosed

/-- Cleanup events with the logged close errors stripped: what the cleanup
does independently of whether the close calls throw. -/
def cleanupCore (isClosed hasPage hasBrowser : Bool) : List Event :=
  (if hasPage then
    (if isClosed then [Event.pageAlreadyClosed] else [Event.pageCloseCall])
   else []) ++
  (if hasBrowser then [Event.browserCloseCall] else []) ++
  [Event.cleanupDone]

/-! Basic facts about one attempt. -/

theorem tryBlock_result (s : AttemptSpec) (merged : PdfOptions) :
    (tryBlock s merged).result = tryResult s := by
  rcases s with ⟨l, np, sc, pe, ic, pce, bce⟩
  cases l <;> cases np <;> cases sc <;> cases pe <;> rfl

theorem attemptRun_result (s : AttemptSpec) (merged : PdfOptions) (isFinal : Bool) :
    (attemptRun s merged isFinal).result = tryResult s := by
  rw [attemptRun]
  exact tryBlock_result s merged

theorem tryFails_iff (s : AttemptSpec) :
    tryFails s = true ↔ ∃ e, tryResult s = Except.error e := by
  unfold tryFails
  rcases h : tryResult s with b | e <;> simp

theorem attemptRun_count_launchCall (s : AttemptSpec) (merged : PdfOptions) (isFinal : Bool) :
    ((attemptRun s merged isFinal).events).countP Event.isLaunchCall = 1 := by
  rcases s with ⟨l, np, sc, pe, ic, pce, bce⟩
  cases l <;> cases np <;> cases sc <;> cases pe <;> cases ic <;> cases pce <;> cases bce <;>
    cases isFinal <;> rfl

theorem attemptRun_count_cleanupDone (s : AttemptSpec) (merged : PdfOptions) (isFinal : Bool) :
    ((attemptRun s merged isFinal).events).countP Event.isCleanupDone = 1 := by
  rcases s with ⟨l, np, sc, pe, ic, pce, bce⟩
  cases l <;> cases np <;> cases sc <;> cases pe <;> cases ic <;> cases pce <;> cases bce <;>
    cases isFinal <;> rfl

theorem attemptRun_balance_browser (s : AttemptSpec) (merged : PdfOptions) (isFinal : Bool) :
    ((attemptRun s merged isFinal).events).countP Event.isLaunchOk =
      ((attemptRun s merged isFinal).events).countP Event.isBrowserCloseCall := by
  rcases s with ⟨l, np, sc, pe, ic, pce, bce⟩
  cases l <;> cases np <;> cases sc <;> cases pe <;> cases ic <;> cases pce <;> cases bce <;>
    cases isFinal <;> rfl

theorem attemptRun_balance_page (s : AttemptSpec) (merged : PdfOptions) (isFinal : Bool) :
    ((attemptRun s merged isFinal).events).countP Event.isPageOpen =
      ((attemptRun s merged isFinal).events).countP Event.isPageCloseCall +
        ((attemptRun s merged isFinal).events).countP Event.isPageAlreadyClosed := by
  rcases s with ⟨l, np, sc, pe, ic, pce, bce⟩
  cases l <;> cases np <;> cases sc <;> cases pe <;> cases ic <;> cases pce <;> cases bce <;>
    cases isFinal <;> rfl

theorem attemptRun_browser_mem (s : AttemptSpec) (merged : PdfOptions) (isFinal : Bool)
    (h : Event.launchOk ∈ (attemptRun s merged isFinal).events) :
    Event.browserCloseCall ∈ (attemptRun s merged isFinal).events := by
  rcases s with ⟨l, np, sc, pe, ic, pce, bce⟩
  cases l <;> cases np <;> cases sc <;> cases pe <;> cases ic <;> cases pce <;> cases bce <;>
    cases isFinal <;> simp_all [attemptRun, tryBlock, catchEvents, cleanupEvents]

theorem attemptRun_page_mem (s : AttemptSpec) (merged : PdfOptions) (isFinal : Bool)
    (h : Event.pageOpen ∈ (attemptRun s merged isFinal).events)
    (hc : s.pageIsClosed = false) :
    Event.pageCloseCall ∈ (attemptRun s merged isFinal).events := by
  rcases s with ⟨l, np, sc, pe, ic, pce, bce⟩
  cases l <;> cases np <;> cases sc <;> cases pe <;> cases ic <;> cases pce <;> cases bce <;>
    cases isFinal <;> simp_all [attemptRun, tryBlock, catchEvents, cleanupEvents]

theorem attemptRun_pdfCall_mem (s : AttemptSpec) (merged o : PdfOptions) (isFinal : Bool)
    (h : Event.pdfCall o ∈ (attemptRun s merged isFinal).events) :
    o = merged := by
  rcases s with ⟨l, np, sc, pe, ic, pce, bce⟩
  cases l <;> cases np <;> cases sc <;> cases pe <;> cases ic <;> cases pce <;> cases bce <;>
    cases isFinal <;> simp_all [attemptRun, tryBlock, catchEvents, cleanupEvents]

/-! Facts about one loop step. -/

theorem stepResult_ok {a : AttemptOut} {b : Bytes} (h : a.result = Except.ok b)
    (isFinal : Bool) (rest : Except Err (Option Bytes) × List Event) :
    stepResult a isFinal rest = (Except.ok (some b), a.events) := by
  simp [stepResult, h]

theorem stepResult_error_final {a : AttemptOut} {e : Err} (h : a.result = Except.error e)
    (rest : Except Err (Option Bytes) × List Event) :
    stepResult a true rest = (Except.error e, a.events) := by
  simp [stepResult, h]

theorem stepResult_error_notfinal {a : AttemptOut} {e : Err} (h : a.result = Except.error e)
    (rest : Except Err (Option Bytes) × List Event) :
    stepResult a false rest = (rest.1, a.events ++ rest.2) := by
  simp [stepResult, h]

/-! Facts about the retry loop. -/

theorem genLoop_count_balance (engine : Nat → AttemptSpec) (merged : PdfOptions) (m : Int)
    (p q : Event → Bool)
    (h : ∀ s mg f, ((attemptRun s mg f).events).countP p = ((attemptRun s mg f).events).countP q) :
    ∀ (fuel attempt : Nat),
      ((genLoop engine merged m attempt fuel).2).countP p =
        ((genLoop engine merged m attempt fuel).2).countP q := by
  intro fuel
  induction fuel with
  | zero => intro attempt; rfl
  | succ f ih =>
    intro attempt
    rw [genLoop]
    rcases htr : tryResult (engine attempt) with e | b
    · cases hfin : decide ((attempt : Int) = m)
      · rw [stepResult_error_notfinal (by rw [attemptRun_result, htr])]
        simp only [List.countP_append, h _ _ _, ih (attempt + 1)]
      · rw [stepResult_error_final (by rw [attemptRun_result, htr])]
        exact h _ _ _
    · rw [stepResult_ok (by rw [attemptRun_result, htr])]
      exact h _ _ _

theorem genLoop_count_balance_add (engine : Nat → AttemptSpec) (merged : PdfOptions) (m : Int)
    (p q r : Event → Bool)
    (h : ∀ s mg f, ((attemptRun s mg f).events).countP p =
      ((attemptRun s mg f).events).countP q + ((attemptRun s mg f).events).countP r) :
    ∀ (fuel attempt : Nat),
      ((genLoop engine merged m attempt fuel).2).countP p =
        ((genLoop engine merged m attempt fuel).2).countP q +
          ((genLoop engine merged m attempt fuel).2).countP r := by
  intro fuel
  induction fuel with
  | zero => intro attempt; rfl
  | succ f ih =>
    intro attempt
    rw [genLoop]
    rcases htr : tryResult (engine attempt) with e | b
    · cases hfin : decide ((attempt : Int) = m)
      · rw [stepResult_error_notfinal (by rw [attemptRun_result, htr])]
        simp only [List.countP_append, h _ _ _, ih (attempt + 1)]
        omega
      · rw [stepResult_error_final (by rw [attemptRun_result, htr])]
        exact h _ _ _
    · rw [stepResult_ok (by rw [attemptRun_result, htr])]
      exact h _ _ _

theorem genLoop_allFail (engine : Nat → AttemptSpec) (merged : PdfOptions) (m : Int) :
    ∀ (fuel attempt : Nat) (e : Err), 1 ≤ fuel →
      (attempt : Int) + fuel = m + 1 →
      (∀ k, attempt ≤ k → k < attempt + fuel → tryFails (engine k) = true) →
      tryResult (engine (attempt + fuel - 1)) = Except.error e →
      (genLoop engine merged m attempt fuel).1 = Except.error e ∧
      ((genLoop engine merged m attempt fuel).2).countP Event.isLaunchCall = fuel ∧
      ((genLoop engine merged m attempt fuel).2).countP Event.isCleanupDone = fuel := by
  intro fuel
  induction fuel with
  | zero => intro attempt e h1; omega
  | succ f ih =>
    intro attempt e _ hinv hall hlast
    rw [genLoop]
    rcases Nat.eq_zero_or_pos f with hf | hf
    · subst hf
      have hm : (attempt : Int) = m := by push_cast at hinv; omega
      have hfin : decide ((attempt : Int) = m) = true := by simp [hm]
      have hres : (attemptRun (engine attempt) merged true).result = Except.error e := by
        rw [attemptRun_result]
        simpa using hlast
      rw [hfin, stepResult_error_final hres]
      exact ⟨rfl, attemptRun_count_launchCall _ _ _, attemptRun_count_cleanupDone _ _ _⟩
    · have hne : (attempt : Int) ≠ m := by push_cast at hinv; omega
      have hfin : decide ((attempt : Int) = m) = false := by simp [hne]
      obtain ⟨e0, he0⟩ := (tryFails_iff (engine attempt)).mp
        (hall attempt le_rfl (by omega))
      rw [hfin, stepResult_error_notfinal (by rw [attemptRun_result]; exact he0)]
      have hidx : attempt + 1 + f - 1 = attempt + (f + 1) - 1 := by omega
      have hrec := ih (attempt + 1) e hf (by push_cast at hinv ⊢; omega)
        (fun k hk1 hk2 => hall k (by omega) (by omega))
        (by rw [hidx]; exact hlast)
      refine ⟨hrec.1, ?_, ?_⟩ <;>
        simp only [List.countP_append, attemptRun_count_launchCall,
          attemptRun_count_cleanupDone, hrec.2.1, hrec.2.2] <;> omega

theorem genLoop_firstSuccess (engine : Nat → AttemptSpec) (merged : PdfOptions) (m : Int) :
    ∀ (fuel attempt j : Nat) (bytes : Bytes),
      attempt ≤ j → j < attempt + fuel →
      (attempt : Int) + fuel = m + 1 →
      (∀ k, attempt ≤ k → k < j → tryFails (engine k) = true) →
      tryResult (engine j) = Except.ok bytes →
      (genLoop engine merged m attempt fuel).1 = Except.ok (some bytes) ∧
      ((genLoop engine merged m attempt fuel).2).countP Event.isLaunchCall = j - attempt + 1 ∧
      ((genLoop engine merged m attempt fuel).2).countP Event.isCleanupDone = j - attempt + 1 := by
  intro fuel
  induction fuel with
  | zero => intro attempt j bytes h1 h2; omega
  | succ f ih =>
    intro attempt j bytes hj1 hj2 hinv hall hsucc
    rw [genLoop]
    rcases Nat.eq_or_lt_of_le hj1 with hje | hjlt
    · subst hje
      rw [stepResult_ok (by rw [attemptRun_result]; exact hsucc)]
      refine ⟨rfl, ?_, ?_⟩ <;>
        simp [attemptRun_count_launchCall, attemptRun_count_cleanupDone]
    · have hf : 1 ≤ f := by omega
      have hne : (attempt : Int) ≠ m := by push_cast at hinv; omega
      have hfin : decide ((attempt : Int) = m) = false := by simp [hne]
      obtain ⟨e0, he0⟩ := (tryFails_iff (engine attempt)).mp
        (hall attempt le_rfl hjlt)
      rw [hfin, stepResult_error_notfinal (by rw [attemptRun_result]; exact he0)]
      have hrec := ih (attempt + 1) j bytes (by omega) (by omega)
        (by push_cast at hinv ⊢; omega)
        (fun k hk1 hk2 => hall k (by omega) hk2) hsucc
      refine ⟨hrec.1, ?_, ?_⟩ <;>
        simp only [List.countP_append, attemptRun_count_launchCall,
          attemptRun_count_cleanupDone, hrec.2.1, hrec.2.2] <;> omega

theorem genLoop_pdfCall_mem (engine : Nat → AttemptSpec) (merged : PdfOptions) (m : Int) :
    ∀ (fuel attempt : Nat) (o : PdfOptions),
      Event.pdfCall o ∈ (genLoop engine merged m attempt fuel).2 → o = merged := by
  intro fuel
  induction fuel with
  | zero => intro attempt o h; simp [genLoop] at h
  | succ f ih =>
    intro attempt o h
    rw [genLoop] at h
    rcases htr : tryResult (engine attempt) with e | b
    · cases hfin : decide ((attempt : Int) = m)
      · rw [hfin] at h
        rw [stepResult_error_notfinal (by rw [attemptRun_result, htr])] at h
        rcases List.mem_append.mp h with h' | h'
        · exact attemptRun_pdfCall_mem _ _ _ _ h'
        · exact ih (attempt + 1) o h'
      · rw [hfin] at h
        rw [stepResult_error_final (by rw [attemptRun_result, htr])] at h
        exact attemptRun_pdfCall_mem _ _ _ _ h
    · rw [stepResult_ok (by rw [attemptRun_result, htr])] at h
      exact attemptRun_pdfCall_mem _ _ _ _ h

/-! Independence from cleanup errors. -/

theorem stripLogs_append (a b : List Event) :
    stripLogs (a ++ b) = stripLogs a ++ stripLogs b := by
  simp [stripLogs, List.filter_append]

theorem tryBlock_congr {s t : AttemptSpec} (h : sameExceptCloseErrs s t) (merged : PdfOptions) :
    tryBlock s merged = tryBlock t merged := by
  rcases s with ⟨sl, sn, sc, sp, si, spc, sbc⟩
  rcases t with ⟨tl, tn, tc, tp, ti, tpc, tbc⟩
  obtain ⟨h1, h2, h3, h4, h5⟩ := h
  dsimp at h1 h2 h3 h4 h5
  subst h1; subst h2; subst h3; subst h4
  cases sl <;> cases sn <;> cases sc <;> cases sp <;> rfl

theorem stripLogs_cleanupEvents (s : AttemptSpec) (hp hb : Bool) :
    stripLogs (cleanupEvents s hp hb) = cleanupCore s.pageIsClosed hp hb := by
  rcases s with ⟨sl, sn, sc, sp, si, spc, sbc⟩
  cases hp <;> cases hb <;> cases si <;> cases spc <;> cases sbc <;> rfl

theorem stripLogs_tryBlock (s : AttemptSpec) (merged : PdfOptions) :
    stripLogs (tryBlock s merged).events = (tryBlock s merged).events := by
  rcases s with ⟨sl, sn, sc, sp, si, spc, sbc⟩
  cases sl <;> cases sn <;> cases sc <;> cases sp <;> rfl

theorem stripLogs_catchEvents (r : Except Err Bytes) (isFinal : Bool) :
    stripLogs (catchEvents r isFinal) = catchEvents r isFinal := by
  cases r <;> cases isFinal <;> rfl

theorem attemptRun_congr {s t : AttemptSpec} (h : sameExceptCloseErrs s t)
    (merged : PdfOptions) (isFinal : Bool) :
    (attemptRun s merged isFinal).result = (attemptRun t merged isFinal).result ∧
    stripLogs (attemptRun s merged isFinal).events =
      stripLogs (attemptRun t merged isFinal).events := by
  have htb := tryBlock_congr h merged
  constructor
  · rw [attemptRun_result, attemptRun_result, ← tryBlock_result s merged,
      ← tryBlock_result t merged, htb]
  · show stripLogs ((tryBlock s merged).events ++ _ ++ _) =
      stripLogs ((tryBlock t merged).events ++ _ ++ _)
    rw [stripLogs_append, stripLogs_append, stripLogs_append, stripLogs_append,
      stripLogs_cleanupEvents, stripLogs_cleanupEvents, htb, h.2.2.2.2]

theorem genLoop_congr (e₁ e₂ : Nat → AttemptSpec) (merged : PdfOptions) (m : Int)
    (h : ∀ k, sameExceptCloseErrs (e₁ k) (e₂ k)) :
    ∀ (fuel attempt : Nat),
      (genLoop e₁ merged m attempt fuel).1 = (genLoop e₂ merged m attempt fuel).1 ∧
      stripLogs (genLoop e₁ merged m attempt fuel).2 =
        stripLogs (genLoop e₂ merged m attempt fuel).2 := by
  intro fuel
  induction fuel with
  | zero => intro attempt; exact ⟨rfl, rfl⟩
  | succ f ih =>
    intro attempt
    rw [genLoop, genLoop]
    have hres : ∀ b : Bool,
        (attemptRun (e₁ attempt) merged b).result = (attemptRun (e₂ attempt) merged b).result ∧
        stripLogs (attemptRun (e₁ attempt) merged b).events =
          stripLogs (attemptRun (e₂ attempt) merged b).events :=
      fun b => attemptRun_congr (h attempt) merged b
    have htr : tryResult (e₁ attempt) = tryResult (e₂ attempt) := by
      rw [← attemptRun_result (e₁ attempt) merged true,
        ← attemptRun_result (e₂ attempt) merged true]
      exact (hres true).1
    rcases h1 : tryResult (e₁ attempt) with e | b
    · have h2 : tryResult (e₂ attempt) = Except.error e := by rw [← htr]; exact h1
      cases hfin : decide ((attempt : Int) = m)
      · rw [stepResult_error_notfinal (by rw [attemptRun_result]; exact h1),
          stepResult_error_notfinal (by rw [attemptRun_result]; exact h2)]
        refine ⟨(ih (attempt + 1)).1, ?_⟩
        show stripLogs (_ ++ _) = stripLogs (_ ++ _)
        rw [stripLogs_append, stripLogs_append, (hres false).2, (ih (attempt + 1)).2]
      · rw [stepResult_error_final (by rw [attemptRun_result]; exact h1),
          stepResult_error_final (by rw [attemptRun_result]; exact h2)]
        exact ⟨rfl, (hres true).2⟩
    · have h2 : tryResult (e₂ attempt) = Except.ok b := by rw [← htr]; exact h1
      rw [stepResult_ok (by rw [attemptRun_result]; exact h1),
        stepResult_ok (by rw [attemptRun_result]; exact h2)]
      exact ⟨rfl, (hres (decide ((attempt : Int) = m))).2⟩

/-! Facts about the endpoint handler. -/

theorem handleHtmlToPdf_falsy (engine : Nat → AttemptSpec) (body : RequestBody)
    (h : body.html = none ∨ ∃ v, body.html = some v ∧ truthy v = false) :
    handleHtmlToPdf engine body = badRequestResponse := by
  rcases body with ⟨bh, bo⟩
  rcases h with h | ⟨v, hv, htv⟩
  · dsimp at h; subst h; rfl
  · dsimp at hv; subst hv
    simp [handleHtmlToPdf, htv]

theorem handleHtmlToPdf_truthy (engine : Nat → AttemptSpec) (body : RequestBody) (v : JsValue)
    (hb : body.html = some v) (hv : truthy v = true) :
    (handleHtmlToPdf engine body).generateCalled = true ∧
    (handleHtmlToPdf engine body).forwardedHtml = some v := by
  rcases body with ⟨bh, bo⟩
  dsimp at hb; subst hb
  rw [handleHtmlToPdf]
  dsimp only
  rw [hv]
  split
  · split <;> simp
  · simp_all

/-! Claim theorems. -/

/-- C1: for every maxAttempts >= 1, if every attempt fails, `generatePDF`
raises exactly the failure of the last (maxAttempts-th) attempt, after
performing exactly maxAttempts launch/close cycles (one launch invocation
and one completed cleanup per attempt), so no error escapes before the
final attempt has failed. -/
theorem generatePDF_exhaustion_raises_last_error (engine : Nat → AttemptSpec)
    (html : JsValue) (options : PdfOptions) (m : Int) (e : Err)
    (hm : 1 ≤ m)
    (hfail : ∀ k : Nat, 1 ≤ k → (k : Int) ≤ m → tryFails (engine k) = true)
    (hlast : tryResult (engine m.toNat) = Except.error e) :
    (generatePDF engine html options m).1 = Except.error e ∧
    ((generatePDF engine html options m).2).countP Event.isLaunchCall = m.toNat ∧
    ((generatePDF engine html options m).2).countP Event.isCleanupDone = m.toNat := by
  have h := genLoop_allFail engine (pdfOptions options) m m.toNat 1 e
    (by omega) (by push_cast; omega)
    (fun k hk1 hk2 => hfail k hk1 (by omega))
    (by have h1 : 1 + m.toNat - 1 = m.toNat := by omega
        rw [h1]; exact hlast)
  exact h

theorem generatePDF_exhaustion_raises_last_error_witness :
    (generatePDF failEngine (JsValue.str "<p>") {} 2).1 = Except.error ⟨"2"⟩ ∧
    ((generatePDF failEngine (JsValue.str "<p>") {} 2).2).countP Event.isLaunchCall = 2 ∧
    ((generatePDF failEngine (JsValue.str "<p>") {} 2).2).countP Event.isCleanupDone = 2 := by
  have h := generatePDF_exhaustion_raises_last_error failEngine (JsValue.str "<p>") {} 2 ⟨"2"⟩
    (by omega) (fun k _ _ => rfl) (by rfl)
  simpa using h

/-- C2: for every invocation, at the end of each attempt no engine instance
and no rendering surface created during that attempt remains open: per
attempt, a successful launch is always followed by a `browser.close()` call
and an opened, not-already-closed page by a `page.close()` call; globally,
over any full run the number of successful launches equals the number of
`browser.close()` calls and the number of opened pages equals the number of
`page.close()` calls plus the pages found already closed. -/
theorem generatePDF_no_resource_leak :
    (∀ (s : AttemptSpec) (merged : PdfOptions) (isFinal : Bool),
      (Event.launchOk ∈ (attemptRun s merged isFinal).events →
        Event.browserCloseCall ∈ (attemptRun s merged isFinal).events) ∧
      (Event.pageOpen ∈ (attemptRun s merged isFinal).events → s.pageIsClosed = false →
        Event.pageCloseCall ∈ (attemptRun s merged isFinal).events)) ∧
    (∀ (engine : Nat → AttemptSpec) (html : JsValue) (options : PdfOptions) (m : Int),
      ((generatePDF engine html options m).2).countP Event.isLaunchOk =
        ((generatePDF engine html options m).2).countP Event.isBrowserCloseCall ∧
      ((generatePDF engine html options m).2).countP Event.isPageOpen =
        ((generatePDF engine html options m).2).countP Event.isPageCloseCall +
          ((generatePDF engine html options m).2).countP Event.isPageAlreadyClosed) := by
  refine ⟨fun s merged isFinal => ⟨attemptRun_browser_mem s merged isFinal,
    fun h hc => attemptRun_page_mem s merged isFinal h hc⟩,
    fun engine html options m => ⟨?_, ?_⟩⟩
  · exact genLoop_count_balance engine (pdfOptions options) m _ _
      (fun s mg f => attemptRun_balance_browser s mg f) m.toNat 1
  · exact genLoop_count_balance_add engine (pdfOptions options) m _ _ _
      (fun s mg f => attemptRun_balance_page s mg f) m.toNat 1

theorem generatePDF_no_resource_leak_witness :
    Event.browserCloseCall ∈ (attemptRun okSpec (pdfOptions {}) false).events ∧
    Event.pageCloseCall ∈ (attemptRun okSpec (pdfOptions {}) false).events :=
  ⟨(generatePDF_no_resource_leak.1 okSpec (pdfOptions {}) false).1 (by decide),
   (generatePDF_no_resource_leak.1 okSpec (pdfOptions {}) false).2 (by decide) rfl⟩

/-- C3: if attempt k (1 <= k <= maxAttempts) is the first attempt whose PDF
export succeeds, `generatePDF` returns that attempt's byte buffer unchanged
after exactly k launch/close cycles — no further attempts after a success. -/
theorem generatePDF_first_success_returns (engine : Nat → AttemptSpec) (html : JsValue)
    (options : PdfOptions) (m : Int) (k : Nat) (bytes : Bytes)
    (hk1 : 1 ≤ k) (hkm : (k : Int) ≤ m)
    (hfail : ∀ j : Nat, 1 ≤ j → j < k → tryFails (engine j) = true)
    (hsucc : tryResult (engine k) = Except.ok bytes) :
    (generatePDF engine html options m).1 = Except.ok (some bytes) ∧
    ((generatePDF engine html options m).2).countP Event.isLaunchCall = k ∧
    ((generatePDF engine html options m).2).countP Event.isCleanupDone = k := by
  have h := genLoop_firstSuccess engine (pdfOptions options) m m.toNat 1 k bytes
    hk1 (by omega) (by push_cast; omega) hfail hsucc
  have hk : k - 1 + 1 = k := by omega
  rw [hk] at h
  exact h

theorem generatePDF_first_success_returns_witness :
    (generatePDF flakyEngine (JsValue.str "<p>") {} 2).1 =
      Except.ok (some [37, 80, 68, 70, 45]) ∧
    ((generatePDF flakyEngine (JsValue.str "<p>") {} 2).2).countP Event.isLaunchCall = 2 ∧
    ((generatePDF flakyEngine (JsValue.str "<p>") {} 2).2).countP Event.isCleanupDone = 2 := by
  have h := generatePDF_first_success_returns flakyEngine (JsValue.str "<p>") {} 2 2
    [37, 80, 68, 70, 45] (by omega) (by omega)
    (by intro j h1 h2
        have hj : j = 1 := by omega
        subst hj; rfl)
    (by rfl)
  simpa using h

/-- C4: errors raised while closing the page or the browser during cleanup
are swallowed: two engines that differ only in whether their cleanup calls
throw produce the same result (returned bytes on success, raised lastError
on failure) and the same trace apart from the logged warnings — so cleanup
errors never replace an attempt's result and never prevent proceeding to
the next attempt or returning to the caller. -/
theorem generatePDF_cleanup_errors_swallowed (e₁ e₂ : Nat → AttemptSpec) (html : JsValue)
    (options : PdfOptions) (m : Int)
    (h : ∀ k, sameExceptCloseErrs (e₁ k) (e₂ k)) :
    (generatePDF e₁ html options m).1 = (generatePDF e₂ html options m).1 ∧
    stripLogs (generatePDF e₁ html options m).2 =
      stripLogs (generatePDF e₂ html options m).2 :=
  genLoop_congr e₁ e₂ (pdfOptions options) m h m.toNat 1

theorem generatePDF_cleanup_errors_swallowed_witness :
    (generatePDF okEngine (JsValue.str "<p>") {} 2).1 =
      (generatePDF noisyCloseEngine (JsValue.str "<p>") {} 2).1 ∧
    stripLogs (generatePDF okEngine (JsValue.str "<p>") {} 2).2 =
      stripLogs (generatePDF noisyCloseEngine (JsValue.str "<p>") {} 2).2 :=
  generatePDF_cleanup_errors_swallowed okEngine noisyCloseEngine (JsValue.str "<p>") {} 2
    (fun _ => ⟨rfl, rfl, rfl, rfl, rfl⟩)

/-- C9: for maxAttempts <= 0 the retry loop body never executes:
`generatePDF` performs no engine call at all (empty trace, so no launch),
raises no error, and returns `undefined` (`Except.ok none`) instead of PDF
bytes or a failure. -/
theorem generatePDF_nonpositive_max_attempts (engine : Nat → AttemptSpec) (html : JsValue)
    (options : PdfOptions) (m : Int) (h : m ≤ 0) :
    generatePDF engine html options m = (Except.ok none, []) := by
  have hz : m.toNat = 0 := by omega
  show genLoop engine (pdfOptions options) m 1 m.toNat = _
  rw [hz]
  rfl

theorem generatePDF_nonpositive_max_attempts_witness :
    generatePDF okEngine (JsValue.str "<p>") {} 0 = (Except.ok none, []) :=
  generatePDF_nonpositive_max_attempts okEngine (JsValue.str "<p>") {} 0 (by omega)

/-- C5 counterexample: in a concrete run whose first attempt fails, the
2-second retry wait appears in the trace before the cleanup of that
attempt, not after it — the `catch` block (which contains the wait on line
91) runs before the `finally` block (which contains the cleanup). -/
theorem generatePDF_wait_precedes_cleanup_cex :
    Event.retryWait 2000 ∈ (generatePDF failEngine (JsValue.str "<p>") {} 2).2 ∧
    Event.pageCloseCall ∈ (generatePDF failEngine (JsValue.str "<p>") {} 2).2 ∧
    ((generatePDF failEngine (JsValue.str "<p>") {} 2).2).indexOf (Event.retryWait 2000) <
      ((generatePDF failEngine (JsValue.str "<p>") {} 2).2).indexOf Event.pageCloseCall := by
  decide

/-- C5 amended: when a non-final attempt fails, `generatePDF` records the
error as lastError, then waits 2 seconds, then performs cleanup (close
surface, close engine), then continues with the next attempt — the wait
precedes the cleanup; when the final attempt fails, it performs cleanup
with no retry wait and then raises lastError. -/
theorem generatePDF_retry_wait_order_amended :
    (∀ (s : AttemptSpec) (merged : PdfOptions) (e : Err),
      tryResult s = Except.error e →
      attemptRun s merged false =
        ⟨Except.error e,
          (tryBlock s merged).events ++ [Event.retryWait 2000] ++
            cleanupEvents s (tryBlock s merged).hasPage (tryBlock s merged).hasBrowser⟩) ∧
    (∀ (s : AttemptSpec) (merged : PdfOptions) (e : Err),
      tryResult s = Except.error e →
      attemptRun s merged true =
        ⟨Except.error e,
          (tryBlock s merged).events ++
            cleanupEvents s (tryBlock s merged).hasPage (tryBlock s merged).hasBrowser⟩) ∧
    (∀ (engine : Nat → AttemptSpec) (merged : PdfOptions) (m : Int)
        (attempt fuel : Nat) (e : Err),
      tryResult (engine attempt) = Except.error e → (attempt : Int) ≠ m →
      genLoop engine merged m attempt (fuel + 1) =
        ((genLoop engine merged m (attempt + 1) fuel).1,
          (attemptRun (engine attempt) merged false).events ++
            (genLoop engine merged m (attempt + 1) fuel).2)) ∧
    (∀ (engine : Nat → AttemptSpec) (merged : PdfOptions) (m : Int)
        (attempt fuel : Nat) (e : Err),
      tryResult (engine attempt) = Except.error e → (attempt : Int) = m →
      genLoop engine merged m attempt (fuel + 1) =
        (Except.error e, (attemptRun (engine attempt) merged true).events)) := by
  refine ⟨?_, ?_, ?_, ?_⟩
  · intro s merged e h
    have hr : (tryBlock s merged).result = Except.error e := by
      rw [tryBlock_result]; exact h
    unfold attemptRun
    rw [hr]
    rfl
  · intro s merged e h
    have hr : (tryBlock s merged).result = Except.error e := by
      rw [tryBlock_result]; exact h
    unfold attemptRun
    rw [hr]
    simp [catchEvents]
  · intro engine merged m attempt fuel e h hne
    have hfin : decide ((attempt : Int) = m) = false := by simp [hne]
    rw [genLoop, hfin, stepResult_error_notfinal (by rw [attemptRun_result]; exact h)]
  · intro engine merged m attempt fuel e h heq
    have hfin : decide ((attempt : Int) = m) = true := by simp [heq]
    rw [genLoop, hfin, stepResult_error_final (by rw [attemptRun_result]; exact h)]

theorem generatePDF_retry_wait_order_amended_witness :
    attemptRun (failSpec "boom") (pdfOptions {}) false =
      ⟨Except.error ⟨"boom"⟩,
        (tryBlock (failSpec "boom") (pdfOptions {})).events ++ [Event.retryWait 2000] ++
          cleanupEvents (failSpec "boom")
            (tryBlock (failSpec "boom") (pdfOptions {})).hasPage
            (tryBlock (failSpec "boom") (pdfOptions {})).hasBrowser⟩ ∧
    attemptRun (failSpec "boom") (pdfOptions {}) true =
      ⟨Except.error ⟨"boom"⟩,
        (tryBlock (failSpec "boom") (pdfOptions {})).events ++
          cleanupEvents (failSpec "boom")
            (tryBlock (failSpec "boom") (pdfOptions {})).hasPage
            (tryBlock (failSpec "boom") (pdfOptions {})).hasBrowser⟩ :=
  ⟨generatePDF_retry_wait_order_amended.1 (failSpec "boom") (pdfOptions {}) ⟨"boom"⟩ rfl,
   generatePDF_retry_wait_order_amended.2.1 (failSpec "boom") (pdfOptions {}) ⟨"boom"⟩ rfl⟩

/-- C6 counterexample: with caller options `timeout: 0` the PDF export is
invoked with timeout 0, not with a 30-second timeout — the spread
`...options` on line 72 overrides the `timeout: 30000` default. -/
theorem generatePDF_timeout_not_bounded_cex :
    Event.pdfCall (pdfOptions { timeout := some 0 }) ∈
      (generatePDF okEngine (JsValue.str "<p>") { timeout := some 0 } 2).2 ∧
    (pdfOptions { timeout := some 0 }).timeout = some 0 ∧
    (pdfOptions { timeout := some 0 }).timeout ≠ some 30000 := by
  decide

/-- C6 amended: the PDF export is always invoked with exactly the merge of
the defaults and the caller's options; its timeout is the bounded
30-second default whenever the caller does not supply a `timeout` option,
and the caller's value when it does. -/
theorem generatePDF_export_merged_options_amended (engine : Nat → AttemptSpec)
    (html : JsValue) (options : PdfOptions) (m : Int) (o : PdfOptions)
    (h : Event.pdfCall o ∈ (generatePDF engine html options m).2) :
    o = pdfOptions options ∧
    (options.timeout = none → o.timeout = some 30000) ∧
    (∀ t, options.timeout = some t → o.timeout = some t) := by
  have ho : o = pdfOptions options :=
    genLoop_pdfCall_mem engine (pdfOptions options) m m.toNat 1 o h
  subst ho
  refine ⟨rfl, ?_, ?_⟩
  · intro ht; simp [pdfOptions, ht]
  · intro t ht; simp [pdfOptions, ht]

theorem generatePDF_export_merged_options_amended_witness :
    Event.pdfCall (pdfOptions {}) ∈ (generatePDF okEngine (JsValue.str "<p>") {} 2).2 ∧
    (pdfOptions {}).timeout = some 30000 :=
  ⟨by decide,
   (generatePDF_export_merged_options_amended okEngine (JsValue.str "<p>") {} 2
     (pdfOptions {}) (by decide)).2.1 rfl⟩

/-- C7: in the options actually passed to the PDF export, each recognized
field the caller leaves unset takes its documented default — format A4,
printBackground true, 1cm margins on all four sides — and every field the
caller sets overrides the default. -/
theorem pdfOptions_defaults_and_overrides (engine : Nat → AttemptSpec) (html : JsValue)
    (options : PdfOptions) (m : Int) (o : PdfOptions)
    (h : Event.pdfCall o ∈ (generatePDF engine html options m).2) :
    (options.format = none → o.format = some "A4") ∧
    (∀ v, options.format = some v → o.format = some v) ∧
    (options.printBackground = none → o.printBackground = some true) ∧
    (∀ b, options.printBackground = some b → o.printBackground = some b) ∧
    (options.margin = none →
      o.margin = some { top := some "1cm", right := some "1cm",
                        bottom := some "1cm", left := some "1cm" }) ∧
    (∀ mg, options.margin = some mg → o.margin = some mg) := by
  have ho : o = pdfOptions options :=
    genLoop_pdfCall_mem engine (pdfOptions options) m m.toNat 1 o h
  subst ho
  exact ⟨fun ht => by simp [pdfOptions, ht],
    fun v ht => by simp [pdfOptions, ht],
    fun ht => by simp [pdfOptions, ht],
    fun b ht => by simp [pdfOptions, ht],
    fun ht => by simp [pdfOptions, ht, defaultMargin],
    fun mg ht => by simp [pdfOptions, ht]⟩

theorem pdfOptions_defaults_and_overrides_witness :
    (pdfOptions {}).format = some "A4" ∧
    (pdfOptions { format := some "Letter" }).format = some "Letter" ∧
    (pdfOptions {}).margin = some { top := some "1cm", right := some "1cm",
                                    bottom := some "1cm", left := some "1cm" } :=
  ⟨(pdfOptions_defaults_and_overrides okEngine (JsValue.str "<p>") {} 2
      (pdfOptions {}) (by decide)).1 rfl,
   (pdfOptions_defaults_and_overrides okEngine (JsValue.str "<p>")
      { format := some "Letter" } 2 (pdfOptions { format := some "Letter" })
      (by decide)).2.1 "Letter" rfl,
   (pdfOptions_defaults_and_overrides okEngine (JsValue.str "<p>") {} 2
      (pdfOptions {}) (by decide)).2.2.2.2.1 rfl⟩

/-- C8: a POST /html-to-pdf request whose body lacks the `html` field or
whose `html` field is the empty string is answered with 400, a JSON body
carrying an error field and a usage hint, and `generatePDF` is never
invoked for that request. -/
theorem handleHtmlToPdf_rejects_missing_or_empty_html (engine : Nat → AttemptSpec)
    (body : RequestBody)
    (h : body.html = none ∨ body.html = some (JsValue.str "")) :
    (handleHtmlToPdf engine body).status = 400 ∧
    (handleHtmlToPdf engine body).errorField = some "HTML content is required" ∧
    (handleHtmlToPdf engine body).usageField = some usageHint ∧
    (handleHtmlToPdf engine body).generateCalled = false := by
  have hb : handleHtmlToPdf engine body = badRequestResponse := by
    apply handleHtmlToPdf_falsy
    rcases h with h | h
    · exact Or.inl h
    · exact Or.inr ⟨JsValue.str "", h, rfl⟩
  rw [hb]
  exact ⟨rfl, rfl, rfl, rfl⟩

theorem handleHtmlToPdf_rejects_missing_or_empty_html_witness :
    (handleHtmlToPdf okEngine {}).status = 400 ∧
    (handleHtmlToPdf okEngine {}).errorField = some "HTML content is required" ∧
    (handleHtmlToPdf okEngine {}).usageField = some usageHint ∧
    (handleHtmlToPdf okEngine {}).generateCalled = false :=
  handleHtmlToPdf_rejects_missing_or_empty_html okEngine {} (Or.inl rfl)

/-- C10: the POST /html-to-pdf validation tests only JS truthiness of
`html`: the empty string is rejected with 400 without invoking
`generatePDF`, while every truthy value — including non-strings such as
numbers, objects and arrays — passes validation and is forwarded to
`generatePDF` as the htmlContent argument. -/
theorem handleHtmlToPdf_truthiness_validation :
    (∀ (engine : Nat → AttemptSpec) (body : RequestBody),
      body.html = some (JsValue.str "") →
      (handleHtmlToPdf engine body).status = 400 ∧
      (handleHtmlToPdf engine body).generateCalled = false) ∧
    (∀ (engine : Nat → AttemptSpec) (body : RequestBody) (v : JsValue),
      body.html = some v → truthy v = true →
      (handleHtmlToPdf engine body).generateCalled = true ∧
      (handleHtmlToPdf engine body).forwardedHtml = some v) ∧
    truthy (JsValue.num 7) = true ∧
    truthy (JsValue.obj []) = true ∧
    truthy (JsValue.arr []) = true := by
  refine ⟨?_, ?_, rfl, rfl, rfl⟩
  · intro engine body h
    have hb : handleHtmlToPdf engine body = badRequestResponse :=
      handleHtmlToPdf_falsy engine body (Or.inr ⟨JsValue.str "", h, rfl⟩)
    rw [hb]
    exact ⟨rfl, rfl⟩
  · intro engine body v hb hv
    exact handleHtmlToPdf_truthy engine body v hb hv

theorem handleHtmlToPdf_truthiness_validation_witness :
    (handleHtmlToPdf okEngine { html := some (JsValue.num 7) }).generateCalled = true ∧
    (handleHtmlToPdf okEngine { html := some (JsValue.num 7) }).forwardedHtml =
      some (JsValue.num 7) ∧
    (handleHtmlToPdf okEngine { html := some (JsValue.str "") }).status = 400 :=
  ⟨(handleHtmlToPdf_truthiness_validation.2.1 okEngine { html := some (JsValue.num 7) }
      (JsValue.num 7) rfl rfl).1,
   (handleHtmlToPdf_truthiness_validation.2.1 okEngine { html := some (JsValue.num 7) }
      (JsValue.num 7) rfl rfl).2,
   (handleHtmlToPdf_truthiness_validation.1 okEngine { html := some (JsValue.str "") } rfl).1⟩
